import Mathlib

/-!
Verification of the adapter layer of `https_everywhere` (`adapter.py`).

The Python adapters are shallowly embedded as Lean functions.  URLs are
`String`s; Python slicing `url[n:]` and `str.startswith` operate on code
points, which matches `String.data` (a `List Char` of code points).  The
underlying network transport is an opaque function returning either a
response or a categorized exception; exceptions are modelled with `Except`.
Mutation of the `request` object is modelled by returning the final state of
the request next to the result.
-/

namespace HTTPSEverywhere

/-- Python `s.startswith(p)`: code-point prefix test. -/
def pyStartsWith (s p : String) : Bool := p.data.isPrefixOf s.data

/-- Python `s[n:]`: drop the first `n` code points. -/
def pyDrop (s : String) (n : Nat) : String := String.mk (s.data.drop n)

/-- The fields of a `requests.Response` that the adapter code reads or
writes: the (case-insensitive) `Location` header, the encoding tag, the
status code, the reason phrase, the body (`_content`) and the `url`
attribute. -/
structure Response where
  location : Option String
  encoding : String
  status_code : Nat
  reason : String
  content : String
  url : String
  deriving Repr, DecidableEq

/-- `_REASON = "HTTPS Everywhere"`, the sentinel reason string. -/
def _REASON : String := "HTTPS Everywhere"

/-- `_generate_redirect(location, code=302)`: a fresh response carrying the
`Location` header, utf8 encoding, the given status code, the sentinel
reason and an empty body.  Its `url` attribute is unset (every call site
overwrites it with the request url). -/
def _generate_redirect (location : String) (code : Nat) : Response :=
  { location := some location
    encoding := "utf8"
    status_code := code
    reason := _REASON
    content := ""
    url := "" }

/-- An outgoing request; the adapters only ever read or mutate its `url`. -/
structure Request where
  url : String
  deriving Repr, DecidableEq

/-- The categorized transport exceptions named in
`_https_downgrade_exceptions` (`requests.exceptions.ConnectionError`,
`urllib3.exceptions.MaxRetryError`, `requests.exceptions.SSLError`),
plus `other` for every exception outside that tuple. -/
inductive TransportExc where
  | connectionError
  | maxRetryError
  | sslError
  | other
  deriving Repr, DecidableEq

/-- Membership in the `_https_downgrade_exceptions` tuple. -/
def isDowngradeExc : TransportExc → Bool
  | TransportExc.connectionError => true
  | TransportExc.maxRetryError => true
  | TransportExc.sslError => true
  | TransportExc.other => false

/-- Errors that can escape an adapter `send`: a transport exception, the
`RuntimeError` raised on an unexpected redirect scheme, and a `KeyError`
from an unguarded header lookup. -/
inductive SendError where
  | transport (e : TransportExc)
  | runtimeError
  | keyError
  deriving Repr, DecidableEq

/-- The wrapped transport (`HTTPAdapter.send` reached through `super`):
returns a response or raises a transport exception. -/
abbrev Transport := Request → Except TransportExc Response

deriving instance DecidableEq for Except

/-- Result of an adapter `send`: the value returned or error raised,
together with the final state of the (possibly mutated) request object. -/
structure SendResult where
  result : Except SendError Response
  request : Request
  deriving Repr, DecidableEq

/-- Forward the request unchanged to the underlying transport
(the `return super(...).send(request, *args, **kwargs)` lines). -/
def forwardResult (t : Transport) (req : Request) : SendResult :=
  { result := (t req).mapError SendError.transport, request := req }

/-- Build and return a synthetic redirect for `location`, setting
`response.url = request.url` as every call site of `_generate_redirect`
does, leaving the request untouched. -/
def syntheticFor (req : Request) (location : String) : SendResult :=
  { result := Except.ok { _generate_redirect location 302 with url := req.url }
    request := req }

/-- `ForceHTTPSAdapter._prevent_https(tail)`: scan the configured
`https_exclusions` list, returning `True` on the first rule that is a
prefix of `tail`. -/
def _prevent_https : List String → String → Bool
  | [], _ => false
  | rule :: rest, tail =>
      if pyStartsWith tail rule then true else _prevent_https rest tail

/-- `ForceHTTPSAdapter.send`: downgrade excluded https URLs, upgrade
non-excluded http URLs, otherwise forward to the transport. -/
def ForceHTTPSAdapter.send (excl : List String) (t : Transport) (req : Request) :
    SendResult :=
  if pyStartsWith req.url "https://" then
    let tail := pyDrop req.url 8
    if _prevent_https excl tail then syntheticFor req ("http://" ++ tail)
    else forwardResult t req
  else if pyStartsWith req.url "http://" then
    let tail := pyDrop req.url 7
    if !(_prevent_https excl tail) then syntheticFor req ("https://" ++ tail)
    else forwardResult t req
  else forwardResult t req

/-- `HTTPSEverywhereOnlyAdapter.send`, parameterized by the external
`https_url_rewrite` function from `._rules` (an opaque collaborator:
only its output is inspected by the adapter). -/
def HTTPSEverywhereOnlyAdapter.send (https_url_rewrite : String → String)
    (t : Transport) (req : Request) : SendResult :=
  if pyStartsWith req.url "http://" then
    let url := https_url_rewrite req.url
    if pyStartsWith url "https://" then
      { result := Except.ok { _generate_redirect url 302 with url := req.url }
        request := req }
    else forwardResult t req
  else forwardResult t req

/-- `ChromePreloadHSTSAdapter.send`, parameterized by the external test
`_check_in(self._domains, parse_url(url).host)` (from `._util` and
`._chrome_preload_hsts`), abstracted as an opaque predicate on the URL. -/
def ChromePreloadHSTSAdapter.send (host_preloaded : String → Bool)
    (t : Transport) (req : Request) : SendResult :=
  if pyStartsWith req.url "http://" then
    if host_preloaded req.url then
      syntheticFor req ("https:" ++ pyDrop req.url 5)
    else forwardResult t req
  else forwardResult t req

/-- `Response.raise_for_status()` raises `HTTPError` exactly for status
codes in `[400, 600)`. -/
def raisesForStatus (r : Response) : Bool :=
  decide (400 ≤ r.status_code) && decide (r.status_code < 600)

/-- Python truthiness of a `requests.Response` (`__bool__` returns
`self.ok`, i.e. `raise_for_status` would not raise). -/
def response_ok (r : Response) : Bool := !(raisesForStatus r)

/-- One iteration's network interaction inside
`PreferHTTPSAdapter._follow_redirects_on_http`: a HEAD request followed by
`raise_for_status`, with the (dead, because a 403 response is falsy) GET
fallback guarded by `if response and response.status_code == 403`. -/
def probe_attempt (head get : String → Except TransportExc Response)
    (current_url : String) : Except TransportExc Response :=
  match head current_url with
  | Except.error e => Except.error e
  | Except.ok r =>
      if raisesForStatus r then
        if response_ok r && (r.status_code == 403) then
          match get current_url with
          | Except.error e2 => Except.error e2
          | Except.ok r2 =>
              if raisesForStatus r2 then Except.error TransportExc.other
              else Except.ok r2
        else Except.error TransportExc.other
      else Except.ok r

/-- What a call of `_follow_redirects_on_http` can do: return a string or
`None` (`url`), return the raw probe response (`resp`), let a transport
exception escape (`transportRaise`, never produced: the bare `except`
catches everything), raise the `RuntimeError` for a non-http(s) redirect
(`runtimeRaise`), or loop beyond the modelled fuel (`fuelOut`). -/
inductive ProbeOutcome where
  | url (u : Option String)
  | resp (r : Response)
  | transportRaise
  | runtimeRaise (cur loc : String)
  | fuelOut
  deriving Repr, DecidableEq

/-- The `while True` loop of `_follow_redirects_on_http`, with explicit
`previous_url` state and a fuel bound on the number of iterations. -/
def followLoop (excl : List String)
    (head get : String → Except TransportExc Response) :
    Nat → String → Option String → ProbeOutcome
  | 0, _, _ => ProbeOutcome.fuelOut
  | Nat.succ fuel, url, previous_url =>
      let current_url := url
      match probe_attempt head get current_url with
      | Except.error _ => ProbeOutcome.url previous_url
      | Except.ok response =>
          match response.location with
          | none => ProbeOutcome.url previous_url
          | some location =>
              if location == "" || location == current_url then
                ProbeOutcome.url previous_url
              else if pyStartsWith location "https:" then
                let tail := pyDrop location 8
                if _prevent_https excl tail then
                  ProbeOutcome.url (some ("http://" ++ tail))
                else ProbeOutcome.resp response
              else if pyStartsWith location "http://" then
                followLoop excl head get fuel location (some current_url)
              else ProbeOutcome.runtimeRaise current_url location

/-- `PreferHTTPSAdapter._follow_redirects_on_http(url)`: the loop started
with `previous_url = None`. -/
def _follow_redirects_on_http (excl : List String)
    (head get : String → Except TransportExc Response) (fuel : Nat)
    (url : String) : ProbeOutcome :=
  followLoop excl head get fuel url none

/-- `PreferHTTPSAdapter.send`.  `none` models the unbounded Python loop
exceeding the fuel.  The `if redirect:` truthiness test is `ok` for a
response object and non-emptiness for a string. -/
def PreferHTTPSAdapter.send (excl : List String)
    (head get : String → Except TransportExc Response) (fuel : Nat)
    (t : Transport) (req : Request) : Option SendResult :=
  let url := req.url
  if pyStartsWith url "https://" then
    let tail := pyDrop url 8
    if _prevent_https excl tail then some (syntheticFor req ("http://" ++ tail))
    else some (ForceHTTPSAdapter.send excl t req)
  else if pyStartsWith url "http://" then
    let tail := pyDrop url 7
    if !(_prevent_https excl tail) then
      match _follow_redirects_on_http excl head get fuel url with
      | ProbeOutcome.fuelOut => none
      | ProbeOutcome.transportRaise =>
          some { result := Except.error (SendError.transport TransportExc.other)
                 request := req }
      | ProbeOutcome.runtimeRaise _ _ =>
          some { result := Except.error SendError.runtimeError, request := req }
      | ProbeOutcome.resp r =>
          if response_ok r then some { result := Except.ok r, request := req }
          else some (syntheticFor req ("https://" ++ tail))
      | ProbeOutcome.url uo =>
          match uo with
          | none => some (syntheticFor req ("https://" ++ tail))
          | some redirect =>
              if redirect == "" then some (syntheticFor req ("https://" ++ tail))
              else if redirect == url then
                some (syntheticFor req ("https://" ++ tail))
              else if pyStartsWith redirect "http://" then
                some (syntheticFor req ("https://" ++ pyDrop url 7))
              else
                some { result := Except.error SendError.runtimeError
                       request := req }
    else some (ForceHTTPSAdapter.send excl t req)
  else some (ForceHTTPSAdapter.send excl t req)

/-- `UpgradeHTTPSAdapter.send`: wrap the forced send of an https request in
a failure boundary; on a categorized failure mutate `request.url` to
`http://` + tail and call the transport directly (skipping
`ForceHTTPSAdapter`). -/
def UpgradeHTTPSAdapter.send (excl : List String) (t : Transport)
    (req : Request) : SendResult :=
  let url := req.url
  if !(pyStartsWith url "https://") then ForceHTTPSAdapter.send excl t req
  else
    let attempt := ForceHTTPSAdapter.send excl t req
    match attempt.result with
    | Except.ok _ => attempt
    | Except.error err =>
        match err with
        | SendError.transport e =>
            if isDowngradeExc e then
              let req2 : Request := { url := "http://" ++ pyDrop url 8 }
              { result := (t req2).mapError SendError.transport, request := req2 }
            else attempt
        | _ => attempt

/-- The `try` block of `SafeUpgradeHTTPSAdapter.send` and what follows it:
a forced send of `req`; on a response whose `location` header is present
and equal to `url` (captured before any mutation), or on a categorized
failure, fall back to `http://` + tail of the current request url, sent
directly through the transport. -/
def SafeUpgradeHTTPSAdapter.sendAttempt (excl : List String) (t : Transport)
    (url : String) (req : Request) : SendResult :=
  let attempt := ForceHTTPSAdapter.send excl t req
  match attempt.result with
  | Except.ok response =>
      match response.location with
      | none => attempt
      | some redirect =>
          if redirect == "" then attempt
          else if redirect == url then
            let req2 : Request := { url := "http://" ++ pyDrop req.url 8 }
            { result := (t req2).mapError SendError.transport, request := req2 }
          else attempt
  | Except.error err =>
      match err with
      | SendError.transport e =>
          if isDowngradeExc e then
            let req2 : Request := { url := "http://" ++ pyDrop req.url 8 }
            { result := (t req2).mapError SendError.transport, request := req2 }
          else attempt
      | _ => attempt

/-- `SafeUpgradeHTTPSAdapter.send`: for a non-https request first send it
through `ForceHTTPSAdapter`; a non-synthetic response is returned as is, a
synthetic one has its `Location` followed by mutating `request.url`
(an unguarded `headers["location"]` lookup) before the forced send. -/
def SafeUpgradeHTTPSAdapter.send (excl : List String) (t : Transport)
    (req : Request) : SendResult :=
  let url := req.url
  if !(pyStartsWith url "https://") then
    let first := ForceHTTPSAdapter.send excl t req
    match first.result with
    | Except.error _ => first
    | Except.ok response =>
        if response.reason == _REASON then
          match response.location with
          | none => { result := Except.error SendError.keyError, request := req }
          | some loc => SafeUpgradeHTTPSAdapter.sendAttempt excl t url { url := loc }
        else first
  else SafeUpgradeHTTPSAdapter.sendAttempt excl t url req

/-! Concrete transports and probe environments used to exercise the
adapters on the scenarios named in the specification. -/

/-- A transport that always answers 200 OK. -/
def tOk : Transport := fun _ =>
  Except.ok { location := none, encoding := "", status_code := 200,
              reason := "OK", content := "", url := "" }

/-- A plain response with the given status code and `Location` header. -/
def mkResp (code : Nat) (loc : Option String) : Response :=
  { location := loc, encoding := "", status_code := code, reason := "OK",
    content := "", url := "" }

/-- A probe environment with the http redirect chain
`a.com -> b.com -> c.com`, `c.com` terminal. -/
def headChain : String → Except TransportExc Response := fun u =>
  if u == "http://a.com/" then Except.ok (mkResp 200 (some "http://b.com/"))
  else if u == "http://b.com/" then Except.ok (mkResp 200 (some "http://c.com/"))
  else Except.ok (mkResp 200 none)

/-- A probe environment where every request fails. -/
def headErr : String → Except TransportExc Response := fun _ =>
  Except.error TransportExc.connectionError

/-- A transport that raises `ConnectionError` for https URLs and answers
200 OK over http. -/
def tHttpsDown : Transport := fun q =>
  if pyStartsWith q.url "https://" then Except.error TransportExc.connectionError
  else Except.ok (mkResp 200 none)

/-- A transport whose answer for `https://x.com/` carries a `Location`
header pointing back at `http://x.com/`. -/
def tSelfRedirect : Transport := fun q =>
  if q.url == "https://x.com/" then Except.ok (mkResp 200 (some "http://x.com/"))
  else Except.ok (mkResp 200 none)

/-- A ruleset rewrite with a single rule for `r.com`. -/
def demoRewrite : String → String := fun u =>
  if u == "http://r.com/" then "https://r.com/" else u

/-! Helper lemmas about the string primitives and the exclusion scan. -/

theorem pyStartsWith_append (p s : String) : pyStartsWith (p ++ s) p = true := by
  unfold pyStartsWith
  rw [String.data_append, List.isPrefixOf_iff_prefix]
  exact List.prefix_append _ _

theorem pyDrop_https_append (s : String) : pyDrop ("https://" ++ s) 8 = s := by
  unfold pyDrop
  rw [String.data_append]
  have h : ("https://".data).length = 8 := by decide
  rw [← h, List.drop_left]

theorem pyDrop_http_append (s : String) : pyDrop ("http://" ++ s) 7 = s := by
  unfold pyDrop
  rw [String.data_append]
  have h : ("http://".data).length = 7 := by decide
  rw [← h, List.drop_left]

theorem http_not_https (s : String) (h : pyStartsWith s "http://" = true) :
    pyStartsWith s "https://" = false := by
  unfold pyStartsWith at h ⊢
  rw [ List.isPrefixOf_iff_prefix] at h
  obtain ⟨u, hu⟩ := h
  rw [Bool.eq_false_iff]
  intro hc
  rw [ List.isPrefixOf_iff_prefix] at hc
  obtain ⟨v, hv⟩ := hc
  rw [← hu] at hv
  have h7 : "http://".data = ['h', 't', 't', 'p', ':', '/', '/'] := by decide
  have h8 : "https://".data = ['h', 't', 't', 'p', 's', ':', '/', '/'] := by decide
  rw [h7, h8] at hv
  simp at hv

theorem https_not_http (s : String) (h : pyStartsWith s "https://" = true) :
    pyStartsWith s "http://" = false := by
  unfold pyStartsWith at h ⊢
  rw [ List.isPrefixOf_iff_prefix] at h
  obtain ⟨u, hu⟩ := h
  rw [Bool.eq_false_iff]
  intro hc
  rw [ List.isPrefixOf_iff_prefix] at hc
  obtain ⟨v, hv⟩ := hc
  rw [← hu] at hv
  have h7 : "http://".data = ['h', 't', 't', 'p', ':', '/', '/'] := by decide
  have h8 : "https://".data = ['h', 't', 't', 'p', 's', ':', '/', '/'] := by decide
  rw [h7, h8] at hv
  simp at hv

theorem https_colon_not_http (x : String) :
    pyStartsWith ("https:" ++ x) "http://" = false := by
  unfold pyStartsWith
  rw [Bool.eq_false_iff]
  intro hc
  rw [ List.isPrefixOf_iff_prefix] at hc
  obtain ⟨u, hu⟩ := hc
  rw [String.data_append] at hu
  have h7 : "http://".data = ['h', 't', 't', 'p', ':', '/', '/'] := by decide
  have h6 : "https:".data = ['h', 't', 't', 'p', 's', ':'] := by decide
  rw [h7, h6] at hu
  simp at hu

theorem http_beq_empty_false (s : String) (h : pyStartsWith s "http://" = true) :
    (s == "") = false := by
  rw [beq_eq_false_iff_ne]
  intro he
  subst he
  unfold pyStartsWith at h
  rw [ List.isPrefixOf_iff_prefix] at h
  have hd : ("" : String).data = [] := rfl
  rw [hd, List.prefix_nil] at h
  have h7 : "http://".data = ['h', 't', 't', 'p', ':', '/', '/'] := by decide
  rw [h7] at h
  cases h

theorem prevent_eq_any (excl : List String) (tail : String) :
    _prevent_https excl tail = excl.any (fun rule => pyStartsWith tail rule) := by
  induction excl with
  | nil => rfl
  | cons a l ih =>
      unfold _prevent_https
      rw [List.any_cons, ih]
      cases pyStartsWith tail a <;> simp

/-! The claims. -/

/-- C1: `ForceHTTPSAdapter.send` returns a synthetic downgrade redirect to
`http://` + tail for an https request whose tail matches an exclusion
prefix, a synthetic upgrade redirect to `https://` + tail for an http
request whose tail matches no exclusion prefix, and in every other case
forwards the request unchanged to the underlying transport. -/
theorem C1_force_https_send_cases (excl : List String) (t : Transport)
    (req : Request) :
    (pyStartsWith req.url "https://" = true →
      _prevent_https excl (pyDrop req.url 8) = true →
      ForceHTTPSAdapter.send excl t req =
        syntheticFor req ("http://" ++ pyDrop req.url 8)) ∧
    (pyStartsWith req.url "http://" = true →
      _prevent_https excl (pyDrop req.url 7) = false →
      ForceHTTPSAdapter.send excl t req =
        syntheticFor req ("https://" ++ pyDrop req.url 7)) ∧
    (¬(pyStartsWith req.url "https://" = true ∧
        _prevent_https excl (pyDrop req.url 8) = true) →
      ¬(pyStartsWith req.url "http://" = true ∧
        _prevent_https excl (pyDrop req.url 7) = false) →
      ForceHTTPSAdapter.send excl t req = forwardResult t req) := by
  refine ⟨?_, ?_, ?_⟩
  · intro h1 h2
    simp [ForceHTTPSAdapter.send, h1, h2]
  · intro h1 h2
    simp [ForceHTTPSAdapter.send, http_not_https req.url h1, h1, h2]
  · intro h1 h2
    by_cases hs : pyStartsWith req.url "https://" = true
    · have hp : _prevent_https excl (pyDrop req.url 8) = false := by
        cases hpc : _prevent_https excl (pyDrop req.url 8)
        · rfl
        · exact absurd ⟨hs, hpc⟩ h1
      simp [ForceHTTPSAdapter.send, hs, hp]
    · by_cases hh : pyStartsWith req.url "http://" = true
      · have hp : _prevent_https excl (pyDrop req.url 7) = true := by
          cases hpc : _prevent_https excl (pyDrop req.url 7)
          · exact absurd ⟨hh, hpc⟩ h2
          · rfl
        simp [ForceHTTPSAdapter.send, hs, hh, hp]
      · simp [ForceHTTPSAdapter.send, hs, hh]

/-- Witness for C1 at the spec's example exclusion list. -/
theorem C1_witness :
    pyStartsWith "https://example.com/api/x" "https://" = true ∧
    _prevent_https ["example.com/api"] (pyDrop "https://example.com/api/x" 8) = true ∧
    ForceHTTPSAdapter.send ["example.com/api"] tOk { url := "https://example.com/api/x" } =
      syntheticFor { url := "https://example.com/api/x" }
        ("http://" ++ pyDrop "https://example.com/api/x" 8) :=
  ⟨by decide, by decide,
    (C1_force_https_send_cases ["example.com/api"] tOk
      { url := "https://example.com/api/x" }).1 (by decide) (by decide)⟩

/-- C7: `_prevent_https` returns true iff some configured rule is a
code-point-exact prefix of the tail (so `"Example.com"` does not match the
rule `"example.com"`), and the order of the exclusion list never changes
the outcome. -/
theorem C7_prevent_https_spec :
    (∀ excl tail, _prevent_https excl tail = true ↔
      ∃ rule ∈ excl, pyStartsWith tail rule = true) ∧
    (∀ excl excl2 tail, excl.Perm excl2 →
      _prevent_https excl tail = _prevent_https excl2 tail) ∧
    _prevent_https ["example.com"] "Example.com" = false := by
  refine ⟨?_, ?_, by decide⟩
  · intro excl tail
    rw [prevent_eq_any, List.any_eq_true]
  · intro excl excl2 tail hperm
    rw [prevent_eq_any, prevent_eq_any, Bool.eq_iff_iff,
      List.any_eq_true, List.any_eq_true]
    constructor
    · rintro ⟨x, hx, hp⟩
      exact ⟨x, hperm.mem_iff.mp hx, hp⟩
    · rintro ⟨x, hx, hp⟩
      exact ⟨x, hperm.mem_iff.mpr hx, hp⟩

/-- Witness for C7: a two-element exclusion list permuted, with the match
exhibited through the iff. -/
theorem C7_witness :
    (["b.com", "a.com"] : List String).Perm ["a.com", "b.com"] ∧
    _prevent_https ["b.com", "a.com"] "b.com/x" =
      _prevent_https ["a.com", "b.com"] "b.com/x" ∧
    (_prevent_https ["a.com", "b.com"] "b.com/x" = true ↔
      ∃ rule ∈ ["a.com", "b.com"], pyStartsWith "b.com/x" rule = true) :=
  ⟨by decide, C7_prevent_https_spec.2.1 _ _ _ (by decide),
    C7_prevent_https_spec.1 _ _⟩

/-- C2: a probe step of `_follow_redirects_on_http` whose network
interaction fails terminates the probe with the last known-good url
(`None` when the first request fails); a successful response with no,
an empty, or a self-pointing `Location` terminates it with the url visited
before this step; and no transport exception ever escapes the loop. -/
theorem C2_probe_terminal (excl : List String)
    (head get : String → Except TransportExc Response) (fuel : Nat)
    (url : String) (previous_url : Option String) :
    (∀ e, probe_attempt head get url = Except.error e →
      followLoop excl head get (fuel + 1) url previous_url =
        ProbeOutcome.url previous_url) ∧
    (∀ r, probe_attempt head get url = Except.ok r →
      (r.location = none ∨ r.location = some "" ∨ r.location = some url) →
      followLoop excl head get (fuel + 1) url previous_url =
        ProbeOutcome.url previous_url) ∧
    (∀ f u pu, followLoop excl head get f u pu ≠ ProbeOutcome.transportRaise) := by
  refine ⟨?_, ?_, ?_⟩
  · intro e h
    simp [followLoop, h]
  · intro r h hloc
    rcases hloc with hl | hl | hl <;> simp [followLoop, h, hl]
  · intro f
    induction f with
    | zero =>
        intro u pu hc
        exact absurd hc (by simp [followLoop])
    | succ n ih =>
        intro u pu hc
        unfold followLoop at hc
        dsimp only at hc
        repeat' split at hc
        any_goals cases hc
        all_goals exact ih _ _ hc

/-- Witness for C2: a probe whose very first request fails returns `None`. -/
theorem C2_witness :
    probe_attempt headErr headErr "http://a.com/" =
      Except.error TransportExc.connectionError ∧
    followLoop [] headErr headErr 1 "http://a.com/" none = ProbeOutcome.url none :=
  ⟨by decide,
    (C2_probe_terminal [] headErr headErr 0 "http://a.com/" none).1
      TransportExc.connectionError (by decide)⟩

/-- C3: when the probe over a non-excluded http url returns a string url
different from the original and starting with `http://` (a host-changing
http-to-http redirect chain that then terminated normally),
`PreferHTTPSAdapter.send` synthesizes the upgrade redirect from the tail
of the ORIGINAL request url, not of the last visited url. -/
theorem C3_prefer_upgrades_original (excl : List String)
    (head get : String → Except TransportExc Response) (fuel : Nat)
    (t : Transport) (req : Request) (r : String)
    (h1 : pyStartsWith req.url "http://" = true)
    (h2 : _prevent_https excl (pyDrop req.url 7) = false)
    (h3 : _follow_redirects_on_http excl head get fuel req.url =
      ProbeOutcome.url (some r))
    (h4 : r ≠ req.url)
    (h5 : pyStartsWith r "http://" = true) :
    PreferHTTPSAdapter.send excl head get fuel t req =
      some (syntheticFor req ("https://" ++ pyDrop req.url 7)) := by
  have hs : pyStartsWith req.url "https://" = false := http_not_https req.url h1
  have hne : (r == "") = false := http_beq_empty_false r h5
  have hnu : (r == req.url) = false := by
    rw [beq_eq_false_iff_ne]
    exact h4
  simp [PreferHTTPSAdapter.send, hs, h1, h2, h3, hne, hnu, h5]

/-- Witness for C3: probing `http://a.com/` over the chain
`a.com -> b.com -> c.com` returns the last known-good url `http://b.com/`,
yet the synthesized upgrade target is built from `a.com`. -/
theorem C3_witness :
    _follow_redirects_on_http [] headChain headChain 3 "http://a.com/" =
      ProbeOutcome.url (some "http://b.com/") ∧
    PreferHTTPSAdapter.send [] headChain headChain 3 tOk { url := "http://a.com/" } =
      some (syntheticFor { url := "http://a.com/" }
        ("https://" ++ pyDrop "http://a.com/" 7)) :=
  ⟨by decide,
    C3_prefer_upgrades_original [] headChain headChain 3 tOk
      { url := "http://a.com/" } "http://b.com/" (by decide) (by decide)
      (by decide) (by decide) (by decide)⟩

/-- C4: for an https request whose forced send raises a categorized
failure, `UpgradeHTTPSAdapter.send` mutates the request url in place to
`http://` + tail and retries by calling the transport directly, bypassing
the force-scheme layer; any other exception propagates unchanged; and a
non-https request is forwarded to the force-scheme layer with no failure
boundary. -/
theorem C4_upgrade_fallback (excl : List String) (t : Transport)
    (req : Request) :
    (∀ e, pyStartsWith req.url "https://" = true →
      (ForceHTTPSAdapter.send excl t req).result =
        Except.error (SendError.transport e) →
      isDowngradeExc e = true →
      UpgradeHTTPSAdapter.send excl t req =
        { result := (t { url := "http://" ++ pyDrop req.url 8 }).mapError
            SendError.transport
          request := { url := "http://" ++ pyDrop req.url 8 } }) ∧
    (∀ e, pyStartsWith req.url "https://" = true →
      (ForceHTTPSAdapter.send excl t req).result =
        Except.error (SendError.transport e) →
      isDowngradeExc e = false →
      UpgradeHTTPSAdapter.send excl t req = ForceHTTPSAdapter.send excl t req) ∧
    (pyStartsWith req.url "https://" = false →
      UpgradeHTTPSAdapter.send excl t req = ForceHTTPSAdapter.send excl t req) := by
  refine ⟨?_, ?_, ?_⟩
  · intro e h1 h2 h3
    simp [UpgradeHTTPSAdapter.send, h1, h2, h3]
  · intro e h1 h2 h3
    simp [UpgradeHTTPSAdapter.send, h1, h2, h3]
  · intro h1
    simp [UpgradeHTTPSAdapter.send, h1]

/-- Witness for C4: a transport that refuses https connections makes the
upgrade adapter retry `http://x.com/` directly. -/
theorem C4_witness :
    (ForceHTTPSAdapter.send [] tHttpsDown { url := "https://x.com/" }).result =
      Except.error (SendError.transport TransportExc.connectionError) ∧
    isDowngradeExc TransportExc.connectionError = true ∧
    UpgradeHTTPSAdapter.send [] tHttpsDown { url := "https://x.com/" } =
      { result := (tHttpsDown { url := "http://" ++ pyDrop "https://x.com/" 8 }).mapError
          SendError.transport
        request := { url := "http://" ++ pyDrop "https://x.com/" 8 } } :=
  ⟨by decide, by decide,
    (C4_upgrade_fallback [] tHttpsDown { url := "https://x.com/" }).1
      TransportExc.connectionError (by decide) (by decide) (by decide)⟩

/-- C5: on a non-https request whose initial send produced a synthetic
response (sentinel reason) with a `Location` differing from the original
url, `SafeUpgradeHTTPSAdapter.send` follows that location once, re-sending
with the request url set to it, before any fallback; and when the forced
https send of a non-excluded http request succeeds with a `Location` equal
to the original url (a no-op self-redirect), the adapter falls back to
sending `http://` + tail directly through the transport. -/
theorem C5_safe_upgrade (excl : List String) (t : Transport) (req : Request) :
    (∀ resp loc,
      pyStartsWith req.url "https://" = false →
      (ForceHTTPSAdapter.send excl t req).result = Except.ok resp →
      resp.reason = _REASON →
      resp.location = some loc →
      loc ≠ req.url →
      SafeUpgradeHTTPSAdapter.send excl t req =
        SafeUpgradeHTTPSAdapter.sendAttempt excl t req.url { url := loc }) ∧
    (∀ resp,
      pyStartsWith req.url "http://" = true →
      _prevent_https excl (pyDrop req.url 7) = false →
      t { url := "https://" ++ pyDrop req.url 7 } = Except.ok resp →
      resp.location = some req.url →
      SafeUpgradeHTTPSAdapter.send excl t req =
        { result := (t { url := "http://" ++ pyDrop req.url 7 }).mapError
            SendError.transport
          request := { url := "http://" ++ pyDrop req.url 7 } }) := by
  constructor
  · intro resp loc h0 h1 h2 h3 _
    simp [SafeUpgradeHTTPSAdapter.send, h0, h1, h2, h3]
  · intro resp h1 h2 h3 h4
    have hs : pyStartsWith req.url "https://" = false := http_not_https req.url h1
    have hne : (req.url == "") = false := http_beq_empty_false req.url h1
    have hne2 : req.url ≠ "" := beq_eq_false_iff_ne.mp hne
    have happ : pyStartsWith ("https://" ++ pyDrop req.url 7) "https://" = true :=
      pyStartsWith_append "https://" (pyDrop req.url 7)
    have hdrop : pyDrop ("https://" ++ pyDrop req.url 7) 8 = pyDrop req.url 7 :=
      pyDrop_https_append _
    simp [SafeUpgradeHTTPSAdapter.send, SafeUpgradeHTTPSAdapter.sendAttempt,
      ForceHTTPSAdapter.send, syntheticFor, _generate_redirect, forwardResult,
      Except.mapError, hs, h1, h2, h3, h4, hne2, happ, hdrop]

/-- Witness for C5: the transport accepts `https://x.com/` but answers with
a `Location` header pointing back at the original `http://x.com/`, so the
adapter falls back to plain http through the transport. -/
theorem C5_witness :
    tSelfRedirect { url := "https://" ++ pyDrop "http://x.com/" 7 } =
      Except.ok (mkResp 200 (some "http://x.com/")) ∧
    (mkResp 200 (some "http://x.com/")).location = some "http://x.com/" ∧
    SafeUpgradeHTTPSAdapter.send [] tSelfRedirect { url := "http://x.com/" } =
      { result := (tSelfRedirect { url := "http://" ++ pyDrop "http://x.com/" 7 }).mapError
          SendError.transport
        request := { url := "http://" ++ pyDrop "http://x.com/" 7 } } :=
  ⟨by decide, by decide,
    (C5_safe_upgrade [] tSelfRedirect { url := "http://x.com/" }).2
      (mkResp 200 (some "http://x.com/")) (by decide) (by decide) (by decide)
      (by decide)⟩

/-- C6: `HTTPSEverywhereOnlyAdapter.send` returns, for an http request
whose ruleset rewrite yields an https url, a synthetic response with the
rewritten url as `Location`, status code 302, the sentinel reason, and the
`url` field set to the ORIGINAL request url; otherwise it forwards the
request unchanged. -/
theorem C6_rule_rewrite (https_url_rewrite : String → String) (t : Transport)
    (req : Request) :
    (pyStartsWith req.url "http://" = true →
      pyStartsWith (https_url_rewrite req.url) "https://" = true →
      HTTPSEverywhereOnlyAdapter.send https_url_rewrite t req =
        { result := Except.ok
            { location := some (https_url_rewrite req.url)
              encoding := "utf8"
              status_code := 302
              reason := _REASON
              content := ""
              url := req.url }
          request := req }) ∧
    (pyStartsWith req.url "http://" = false →
      HTTPSEverywhereOnlyAdapter.send https_url_rewrite t req =
        forwardResult t req) ∧
    (pyStartsWith (https_url_rewrite req.url) "https://" = false →
      HTTPSEverywhereOnlyAdapter.send https_url_rewrite t req =
        forwardResult t req) := by
  refine ⟨?_, ?_, ?_⟩
  · intro h1 h2
    simp [HTTPSEverywhereOnlyAdapter.send, h1, h2, _generate_redirect]
  · intro h1
    simp [HTTPSEverywhereOnlyAdapter.send, h1]
  · intro h2
    by_cases h1 : pyStartsWith req.url "http://" = true
    · simp [HTTPSEverywhereOnlyAdapter.send, h1, h2]
    · simp [HTTPSEverywhereOnlyAdapter.send, h1]

/-- Witness for C6: a single-rule rewrite on `r.com`. -/
theorem C6_witness :
    pyStartsWith "http://r.com/" "http://" = true ∧
    demoRewrite "http://r.com/" = "https://r.com/" ∧
    HTTPSEverywhereOnlyAdapter.send demoRewrite tOk { url := "http://r.com/" } =
      { result := Except.ok
          { location := some (demoRewrite "http://r.com/")
            encoding := "utf8"
            status_code := 302
            reason := _REASON
            content := ""
            url := "http://r.com/" }
        request := { url := "http://r.com/" } } :=
  ⟨by decide, by decide,
    (C6_rule_rewrite demoRewrite tOk { url := "http://r.com/" }).1
      (by decide) (by decide)⟩

/-- The force adapter either returns a response or lets a transport
exception through: it can raise neither `RuntimeError` nor `KeyError`. -/
theorem force_send_shape (excl : List String) (t : Transport) (req : Request) :
    (∃ loc, ForceHTTPSAdapter.send excl t req = syntheticFor req loc) ∨
    ForceHTTPSAdapter.send excl t req = forwardResult t req := by
  by_cases h1 : pyStartsWith req.url "https://" = true
  · by_cases h2 : _prevent_https excl (pyDrop req.url 8) = true
    · exact Or.inl ⟨"http://" ++ pyDrop req.url 8,
        by simp [ForceHTTPSAdapter.send, h1, h2]⟩
    · exact Or.inr (by simp [ForceHTTPSAdapter.send, h1, h2])
  · by_cases h3 : pyStartsWith req.url "http://" = true
    · by_cases h2 : _prevent_https excl (pyDrop req.url 7) = true
      · exact Or.inr (by simp [ForceHTTPSAdapter.send, h1, h3, h2])
      · exact Or.inl ⟨"https://" ++ pyDrop req.url 7,
          by simp [ForceHTTPSAdapter.send, h1, h3, h2]⟩
    · exact Or.inr (by simp [ForceHTTPSAdapter.send, h1, h3])

theorem force_result_cases (excl : List String) (t : Transport) (req : Request) :
    (∃ r, (ForceHTTPSAdapter.send excl t req).result = Except.ok r) ∨
    (∃ e, (ForceHTTPSAdapter.send excl t req).result =
      Except.error (SendError.transport e)) := by
  rcases force_send_shape excl t req with ⟨loc, hF⟩ | hF
  · refine Or.inl ⟨{ _generate_redirect loc 302 with url := req.url }, ?_⟩
    rw [hF]
    rfl
  · rw [hF]
    cases ht : t req with
    | ok r => exact Or.inl ⟨r, by simp [forwardResult, ht, Except.mapError]⟩
    | error e => exact Or.inr ⟨e, by simp [forwardResult, ht, Except.mapError]⟩

/-- The `try`-block-and-fallback part of `SafeUpgradeHTTPSAdapter.send`
never raises a `KeyError` (its header lookup uses `.get`). -/
theorem sendAttempt_no_keyError (excl : List String) (t : Transport)
    (url : String) (req : Request) :
    (SafeUpgradeHTTPSAdapter.sendAttempt excl t url req).result ≠
      Except.error SendError.keyError := by
  rcases force_result_cases excl t req with ⟨r, hr⟩ | ⟨e, he⟩
  · simp only [SafeUpgradeHTTPSAdapter.sendAttempt, hr]
    cases hl : r.location with
    | none => simp [hr]
    | some redirect =>
        by_cases h1 : redirect = ""
        · simp [h1, hr]
        · by_cases h2 : redirect = url
          · subst h2
            simp only [h1, if_false, if_pos rfl]
            cases ht : t { url := "http://" ++ pyDrop req.url 8 } <;>
              simp [Except.mapError, ht, h1]
          · simp [h1, h2, hr]
  · simp only [SafeUpgradeHTTPSAdapter.sendAttempt, he]
    by_cases hd : isDowngradeExc e = true
    · simp [hd]
      cases ht : t { url := "http://" ++ pyDrop req.url 8 } <;>
        simp [Except.mapError, ht]
    · simp [hd, he]

/-- C8: feeding an adapter's synthesized `Location` back in as a new
request url does not re-trigger a rewrite: the force adapter's https
upgrade target (tail not excluded) and http downgrade target (tail
excluded), the ruleset adapter's https target, and the preload adapter's
`https:`-swapped target are all forwarded to the transport untouched on
the second send. -/
theorem C8_idempotent (excl : List String) (host_preloaded : String → Bool)
    (https_url_rewrite : String → String) (t : Transport) (req : Request) :
    (pyStartsWith req.url "http://" = true →
      _prevent_https excl (pyDrop req.url 7) = false →
      ForceHTTPSAdapter.send excl t { url := "https://" ++ pyDrop req.url 7 } =
        forwardResult t { url := "https://" ++ pyDrop req.url 7 }) ∧
    (pyStartsWith req.url "https://" = true →
      _prevent_https excl (pyDrop req.url 8) = true →
      ForceHTTPSAdapter.send excl t { url := "http://" ++ pyDrop req.url 8 } =
        forwardResult t { url := "http://" ++ pyDrop req.url 8 }) ∧
    (∀ loc, pyStartsWith loc "https://" = true →
      HTTPSEverywhereOnlyAdapter.send https_url_rewrite t { url := loc } =
        forwardResult t { url := loc }) ∧
    (pyStartsWith req.url "http://" = true →
      ChromePreloadHSTSAdapter.send host_preloaded t
          { url := "https:" ++ pyDrop req.url 5 } =
        forwardResult t { url := "https:" ++ pyDrop req.url 5 }) := by
  refine ⟨?_, ?_, ?_, ?_⟩
  · intro _ h2
    simp [ForceHTTPSAdapter.send, pyStartsWith_append, pyDrop_https_append, h2]
  · intro _ h2
    have hhttp : pyStartsWith ("http://" ++ pyDrop req.url 8) "http://" = true :=
      pyStartsWith_append "http://" (pyDrop req.url 8)
    simp [ForceHTTPSAdapter.send, http_not_https _ hhttp, hhttp,
      pyDrop_http_append, h2]
  · intro loc hl
    simp [HTTPSEverywhereOnlyAdapter.send, https_not_http loc hl]
  · intro _
    simp [ChromePreloadHSTSAdapter.send, https_colon_not_http]

/-- Witness for C8: the upgrade target of `http://ok.com/` is not rewritten
again. -/
theorem C8_witness :
    pyStartsWith "http://ok.com/" "http://" = true ∧
    _prevent_https ["ex.com/"] (pyDrop "http://ok.com/" 7) = false ∧
    ForceHTTPSAdapter.send ["ex.com/"] tOk
        { url := "https://" ++ pyDrop "http://ok.com/" 7 } =
      forwardResult tOk { url := "https://" ++ pyDrop "http://ok.com/" 7 } :=
  ⟨by decide, by decide,
    (C8_idempotent ["ex.com/"] (fun _ => true) demoRewrite tOk
      { url := "http://ok.com/" }).1 (by decide) (by decide)⟩

/-- C9: a request whose url starts with neither `http://` nor `https://` is
passed through to the underlying transport unchanged by every adapter: no
rewrite is attempted, no synthetic response produced, and the request url
is not mutated (for the safe upgrade adapter, whenever the transport's own
answer does not itself carry the synthetic sentinel reason). -/
theorem C9_other_scheme_pass_through (excl : List String)
    (host_preloaded : String → Bool) (https_url_rewrite : String → String)
    (head get : String → Except TransportExc Response) (fuel : Nat)
    (t : Transport) (req : Request)
    (hH : pyStartsWith req.url "http://" = false)
    (hS : pyStartsWith req.url "https://" = false) :
    HTTPSEverywhereOnlyAdapter.send https_url_rewrite t req =
      forwardResult t req ∧
    ChromePreloadHSTSAdapter.send host_preloaded t req = forwardResult t req ∧
    ForceHTTPSAdapter.send excl t req = forwardResult t req ∧
    PreferHTTPSAdapter.send excl head get fuel t req =
      some (forwardResult t req) ∧
    UpgradeHTTPSAdapter.send excl t req = forwardResult t req ∧
    (∀ e, t req = Except.error e →
      SafeUpgradeHTTPSAdapter.send excl t req = forwardResult t req) ∧
    (∀ r, t req = Except.ok r → r.reason ≠ _REASON →
      SafeUpgradeHTTPSAdapter.send excl t req = forwardResult t req) := by
  refine ⟨?_, ?_, ?_, ?_, ?_, ?_, ?_⟩
  · simp [HTTPSEverywhereOnlyAdapter.send, hH]
  · simp [ChromePreloadHSTSAdapter.send, hH]
  · simp [ForceHTTPSAdapter.send, hH, hS]
  · simp [PreferHTTPSAdapter.send, ForceHTTPSAdapter.send, hH, hS]
  · simp [UpgradeHTTPSAdapter.send, ForceHTTPSAdapter.send, hH, hS]
  · intro e he
    simp [SafeUpgradeHTTPSAdapter.send, ForceHTTPSAdapter.send, forwardResult,
      hH, hS, he, Except.mapError]
  · intro r hr hreason
    simp [SafeUpgradeHTTPSAdapter.send, ForceHTTPSAdapter.send, forwardResult,
      hH, hS, hr, hreason, Except.mapError]

/-- Witness for C9 at an ftp url. -/
theorem C9_witness :
    pyStartsWith "ftp://x/" "http://" = false ∧
    pyStartsWith "ftp://x/" "https://" = false ∧
    ForceHTTPSAdapter.send [] tOk { url := "ftp://x/" } =
      forwardResult tOk { url := "ftp://x/" } ∧
    SafeUpgradeHTTPSAdapter.send [] tOk { url := "ftp://x/" } =
      forwardResult tOk { url := "ftp://x/" } := by
  have h := C9_other_scheme_pass_through [] (fun _ => true) demoRewrite
    headErr headErr 1 tOk { url := "ftp://x/" } (by decide) (by decide)
  refine ⟨by decide, by decide, h.2.2.1, ?_⟩
  exact h.2.2.2.2.2.2
    { location := none, encoding := "", status_code := 200, reason := "OK",
      content := "", url := "" } (by decide) (by decide)

/-- C10: `_generate_redirect` always stores the given location under the
`Location` header together with the sentinel reason (and status 302 at the
code every adapter call site passes), so the unguarded
`headers["location"]` lookup that `SafeUpgradeHTTPSAdapter.send` performs
after detecting the sentinel reason can never fail with a missing key,
provided the transport itself never answers with the sentinel reason. -/
theorem C10_sentinel_location (excl : List String) (t : Transport)
    (req : Request) :
    (∀ loc code, (_generate_redirect loc code).location = some loc ∧
      (_generate_redirect loc code).reason = _REASON ∧
      (_generate_redirect loc 302).status_code = 302) ∧
    ((∀ q r, t q = Except.ok r → r.reason ≠ _REASON) →
      (SafeUpgradeHTTPSAdapter.send excl t req).result ≠
        Except.error SendError.keyError) := by
  constructor
  · intro loc code
    exact ⟨rfl, rfl, rfl⟩
  · intro htr
    by_cases hS : pyStartsWith req.url "https://" = true
    · simp only [SafeUpgradeHTTPSAdapter.send, hS, Bool.not_true,
        Bool.false_eq_true, if_false]
      exact sendAttempt_no_keyError excl t req.url req
    · have hSf : pyStartsWith req.url "https://" = false := by
        cases h : pyStartsWith req.url "https://"
        · rfl
        · exact absurd h hS
      by_cases hH : pyStartsWith req.url "http://" = true
      · by_cases hP : _prevent_https excl (pyDrop req.url 7) = true
        · cases ht : t req with
          | error e =>
              simp [SafeUpgradeHTTPSAdapter.send, ForceHTTPSAdapter.send,
                forwardResult, hSf, hH, hP, ht, Except.mapError]
          | ok r =>
              have hrr : r.reason ≠ _REASON := htr req r ht
              simp [SafeUpgradeHTTPSAdapter.send, ForceHTTPSAdapter.send,
                forwardResult, hSf, hH, hP, ht, Except.mapError, hrr]
        · have hlem := sendAttempt_no_keyError excl t req.url
            { url := "https://" ++ pyDrop req.url 7 }
          simpa [SafeUpgradeHTTPSAdapter.send, ForceHTTPSAdapter.send,
            syntheticFor, _generate_redirect, hSf, hH, hP] using hlem
      · cases ht : t req with
        | error e =>
            simp [SafeUpgradeHTTPSAdapter.send, ForceHTTPSAdapter.send,
              forwardResult, hSf, hH, ht, Except.mapError]
        | ok r =>
            have hrr : r.reason ≠ _REASON := htr req r ht
            simp [SafeUpgradeHTTPSAdapter.send, ForceHTTPSAdapter.send,
              forwardResult, hSf, hH, ht, Except.mapError, hrr]

/-- Witness for C10: the sentinel-free transport `tOk` can never trip the
unguarded lookup. -/
theorem C10_witness :
    (∀ q r, tOk q = Except.ok r → r.reason ≠ _REASON) ∧
    (SafeUpgradeHTTPSAdapter.send [] tOk { url := "http://x.com/" }).result ≠
      Except.error SendError.keyError := by
  have hok : ∀ q r, tOk q = Except.ok r → r.reason ≠ _REASON := by
    intro q r h
    simp [tOk] at h
    subst h
    decide
  exact ⟨hok, (C10_sentinel_location [] tOk { url := "http://x.com/" }).2 hok⟩

end HTTPSEverywhere
